import Mathlib

set_option maxHeartbeats 1000000

/-
  Verification of the events_rag_platform repository.

  Part 1 models src/src/lambda/aoss_index_creator/index.py as a state-passing
  program.  External effects are captured as follows:
    * an `Oracle` supplies the responses of the outside world: `cp k` is the
      result of the k-th control-plane `batch_get_collection` call (`none`
      models an empty `collectionDetails` list, which makes
      `_get_collection_endpoint` raise RuntimeError), and `dp k` is the HTTP
      status of the k-th signed data-plane request; `creds` says whether
      `boto3` credentials are available (`_sign_and_send` raises otherwise);
    * a `RecState` threads the virtual clock (advanced only by `time.sleep`),
      the counters used to index the oracle, and logs of the data-plane
      requests, sleeps, and completion callbacks actually emitted.

  Python exceptions become `Except PyErr`.  Notably, the module defines
  `_cf_response` (line 14) but every call site in `handler` invokes the
  undefined name `_cfn_response` (lines 185, 204, 214, 221), so in Python each
  such call raises NameError at call time; we model those call sites as
  `cfnNameError`.  The defined-but-unused `_cf_response` itself evaluates the
  unbound local name `data` on line 28 while building the response body, which
  likewise raises NameError before any HTTP PUT is made; `cfResponse` models
  this.  Transport-level network exceptions of `urllib3` are not modelled: the
  oracle always returns an HTTP status for a signed request.
-/

/-- Python exceptions raised by the module, by class and message. -/
inductive PyErr where
  | nameError (msg : String)
  | valueError (msg : String)
  | runtimeError (msg : String)
  | timeoutError (msg : String)
deriving DecidableEq

/-- The shape of a data-plane URL built by the source, relative to the
collection endpoint (`base`):
`root` is `{base}/`, `index n` is `{base}/{n}`, `mapping n` is
`{base}/{n}/_mapping`, `search n` is `{base}/{n}/_search?size=0`. -/
inductive DPPath where
  | root
  | index (name : String)
  | mapping (name : String)
  | search (name : String)
deriving DecidableEq

/-- One signed data-plane request: the source calls
`_sign_and_send(region, method, url)`; we record the method together with the
structure of the url. -/
structure DPReq where
  method : String
  base : String
  path : DPPath
deriving DecidableEq

/-- The url string the source would pass to `_sign_and_send`. -/
def DPReq.url (r : DPReq) : String :=
  match r.path with
  | DPPath.root => r.base ++ "/"
  | DPPath.index n => r.base ++ "/" ++ n
  | DPPath.mapping n => r.base ++ "/" ++ n ++ "/_mapping"
  | DPPath.search n => r.base ++ "/" ++ n ++ "/_search?size=0"

/-- A completion callback (the HTTP PUT of `_cf_response`), had one been
sent: the `Status` field and the `PhysicalResourceId` field of the body. -/
structure CFCallback where
  status : String
  physicalResourceId : String
deriving DecidableEq

/-- The observable state of one invocation. -/
structure RecState where
  clock : Nat
  dpIdx : Nat
  cpIdx : Nat
  dpLog : List DPReq
  sleepLog : List Nat
  cbLog : List CFCallback
deriving DecidableEq

/-- The state at the start of an invocation. -/
def RecState.init : RecState := ⟨0, 0, 0, [], [], []⟩

/-- Responses of the outside world (see the header comment). -/
structure Oracle where
  creds : Bool
  cp : Nat → Option (String × String)
  dp : Nat → Nat

/-- `time.sleep(d)`: advances the virtual clock and logs the delay. -/
def sleep (d : Nat) (s : RecState) : RecState :=
  { s with clock := s.clock + d, sleepLog := s.sleepLog ++ [d] }

/-- The trigger event.  `CollectionName` and `IndexName` stand for
`event['ResourceProperties'].get(...)`; `none` models an absent key. -/
structure Event where
  RequestType : Option String
  CollectionName : Option String
  IndexName : Option String
  ResponseURL : Option String
  PhysicalResourceId : Option String
  LogicalResourceId : String
  StackId : String
  RequestId : String
deriving DecidableEq

/-- Python truthiness test `not x` for an optional string: true when the key
is absent (None) or the string is empty. -/
def pyFalsy : Option String → Bool
  | none => true
  | some s => s == ""

/-- Python f-string interpolation of a possibly-`None` value. -/
def pyOptStr : Option String → String
  | none => "None"
  | some s => s

/-- Python `s.rstrip('/')` (line 195 of the source). -/
def pyRstripSlash (s : String) : String :=
  ⟨(s.data.reverse.dropWhile (fun c => c == '/')).reverse⟩

/-- The NameError raised by every `handler` call site of the undefined name
`_cfn_response`. -/
def cfnNameError : PyErr := PyErr.nameError "name '_cfn_response' is not defined"

/-- `_sign_and_send` (lines 37-48): raises when no credentials are available,
otherwise sends the signed request and returns the HTTP status supplied by
the oracle for this (the `dpIdx`-th) data-plane call. -/
def signSend (o : Oracle) (r : DPReq) (s : RecState) : Except PyErr Nat × RecState :=
  if o.creds then
    (Except.ok (o.dp s.dpIdx),
     { s with dpIdx := s.dpIdx + 1, dpLog := s.dpLog ++ [r] })
  else
    (Except.error (PyErr.runtimeError "No AWS credentials available to sign AOSS request"), s)

/-- `_get_collection_endpoint` (lines 53-58): one `batch_get_collection`
call; an empty `collectionDetails` list raises RuntimeError, otherwise the
endpoint and status of the first detail record are returned. -/
def getCollectionEndpoint (o : Oracle) (cname : String) (s : RecState) :
    Except PyErr (String × String) × RecState :=
  let s1 : RecState := { s with cpIdx := s.cpIdx + 1 }
  match o.cp s.cpIdx with
  | none => (Except.error (PyErr.runtimeError ("Collection '" ++ cname ++ "' not found")), s1)
  | some es => (Except.ok es, s1)

/-- The polling loop of `_wait_collection_active` (lines 60-69).  The source
runs `while waited <= 300` with `waited += 5` after each 5-second sleep, so
the status call is made exactly for `waited ∈ {0, 5, ..., 300}`: 61 probe
opportunities; we count them down in `fuel`, and `fuel = 0` is exactly the
exit of the `while` that raises TimeoutError. -/
def waitLoop (o : Oracle) (cname : String) : Nat → RecState → Except PyErr Unit × RecState
  | 0, s =>
    (Except.error (PyErr.timeoutError
      ("Collection '" ++ cname ++ "' did not become ACTIVE within 300s")), s)
  | fuel + 1, s =>
    match getCollectionEndpoint o cname s with
    | (Except.error e, s1) => (Except.error e, s1)
    | (Except.ok (_, status), s1) =>
      if status = "ACTIVE" then (Except.ok (), s1)
      else waitLoop o cname fuel (sleep 5 s1)

/-- `_wait_collection_active(collection_name, region)` with its default
bounds `max_wait_s=300`, `poll_s=5`. -/
def waitCollectionActive (o : Oracle) (cname : String) (s : RecState) :
    Except PyErr Unit × RecState :=
  waitLoop o cname 61 s

/-- `_index_exists` (lines 71-75): a signed HEAD on the index path; exists
iff the status is 200. -/
def indexExists (o : Oracle) (base idx : String) (s : RecState) :
    Except PyErr Bool × RecState :=
  match signSend o ⟨"HEAD", base, DPPath.index idx⟩ s with
  | (Except.error e, s1) => (Except.error e, s1)
  | (Except.ok st, s1) => (Except.ok (st = 200), s1)

/-- `_create_index` (lines 77-118): one signed PUT of the mapping body; any
status other than 200 or 201 raises RuntimeError (line 117-118).  There is no
retry and no sleep in this function.  (The raised message carries the status;
the response-body sample is not modelled.) -/
def createIndex (o : Oracle) (base idx : String) (s : RecState) :
    Except PyErr Unit × RecState :=
  match signSend o ⟨"PUT", base, DPPath.index idx⟩ s with
  | (Except.error e, s1) => (Except.error e, s1)
  | (Except.ok st, s1) =>
    if st = 200 ∨ st = 201 then (Except.ok (), s1)
    else (Except.error (PyErr.runtimeError ("Create index failed: HTTP " ++ toString st)), s1)

/-- The loop of `_stabilize_index` (lines 128-163).  Each round issues a
HEAD, then `GET _mapping`, then `GET _search?size=0`; the source `continue`s
(sleep, double the delay up to the cap) on the first non-200 of the round and
returns as soon as all three are 200; `deadline` is `time.time() + max_wait_s`
at entry.  `fuel` is an upper bound on the remaining loop iterations that we
keep ≥ `deadline - clock`; since every iteration that loops first sleeps
`delay ≥ 1` seconds, `fuel` can only reach 0 once `clock ≥ deadline`, where
the source raises the same TimeoutError, so the `fuel = 0` arm coincides with
the deadline exit.  (The `attempt` counter of the source only feeds log
output and is dropped.) -/
def stabLoop (o : Oracle) (base idx : String) (cap deadline : Nat) :
    Nat → Nat → RecState → Except PyErr Unit × RecState
  | 0, _, s =>
    (Except.error (PyErr.timeoutError
      ("Index '" ++ idx ++ "' did not become queryable within 300s")), s)
  | fuel + 1, delay, s =>
    if s.clock < deadline then
      match signSend o ⟨"HEAD", base, DPPath.index idx⟩ s with
      | (Except.error e, s1) => (Except.error e, s1)
      | (Except.ok hst, s1) =>
        if hst = 200 then
          match signSend o ⟨"GET", base, DPPath.mapping idx⟩ s1 with
          | (Except.error e, s2) => (Except.error e, s2)
          | (Except.ok mst, s2) =>
            if mst = 200 then
              match signSend o ⟨"GET", base, DPPath.search idx⟩ s2 with
              | (Except.error e, s3) => (Except.error e, s3)
              | (Except.ok sst, s3) =>
                if sst = 200 then (Except.ok (), s3)
                else stabLoop o base idx cap deadline fuel (min (delay * 2) cap) (sleep delay s3)
            else stabLoop o base idx cap deadline fuel (min (delay * 2) cap) (sleep delay s2)
        else stabLoop o base idx cap deadline fuel (min (delay * 2) cap) (sleep delay s1)
    else
      (Except.error (PyErr.timeoutError
        ("Index '" ++ idx ++ "' did not become queryable within 300s")), s)

/-- `_stabilize_index(base, region, index_name)` with its default parameters
`max_wait_s=300`, `backoff_start_s=2`, `backoff_cap_s=20`. -/
def stabilizeIndex (o : Oracle) (base idx : String) (s : RecState) :
    Except PyErr Unit × RecState :=
  stabLoop o base idx 20 (s.clock + 300) 300 2 s

/-- `_cf_response` (lines 14-35): with a falsy `ResponseURL` it only logs a
warning and returns; otherwise it builds the response body, whose `Data`
entry evaluates the unbound name `data` (line 28) and raises NameError, so
the HTTP PUT on line 32 is never reached and nothing is appended to the
callback log. -/
def cfResponse (e : Event) (status : String) (reason : Option String) (s : RecState) :
    Except PyErr Unit × RecState :=
  if pyFalsy e.ResponseURL then (Except.ok (), s)
  else (Except.error (PyErr.nameError "name 'data' is not defined"), s)

/-- `physical_id = f"{collection_name}:{index_name}"` (line 180). -/
def handlerPhysicalId (e : Event) : String :=
  pyOptStr e.CollectionName ++ ":" ++ pyOptStr e.IndexName

/-- The body of the `try:` block of `handler` (lines 182-216).  Every call of
the undefined `_cfn_response` (lines 185, 204, 214) raises `cfnNameError` at
the point of the call.  The source's local bindings `req_type`,
`collection_name`, `index_name` and `base = endpoint.rstrip('/')` are
inlined at their use sites. -/
def handlerTry (o : Oracle) (e : Event) (s : RecState) : Except PyErr Unit × RecState :=
  if e.RequestType.getD "Create" = "Delete" then
    (Except.error cfnNameError, s)
  else if pyFalsy e.CollectionName || pyFalsy e.IndexName then
    (Except.error (PyErr.valueError "Missing required properties: CollectionName and IndexName"), s)
  else
    match waitCollectionActive o (e.CollectionName.getD "") s with
    | (Except.error er, s1) => (Except.error er, s1)
    | (Except.ok _, s1) =>
      match getCollectionEndpoint o (e.CollectionName.getD "") s1 with
      | (Except.error er, s2) => (Except.error er, s2)
      | (Except.ok (endpoint, _), s2) =>
        match indexExists o (pyRstripSlash endpoint) (e.IndexName.getD "") s2 with
        | (Except.error er, s3) => (Except.error er, s3)
        | (Except.ok true, s3) =>
          match stabilizeIndex o (pyRstripSlash endpoint) (e.IndexName.getD "") s3 with
          | (Except.error er, s4) => (Except.error er, s4)
          | (Except.ok _, s4) => (Except.error cfnNameError, s4)
        | (Except.ok false, s3) =>
          match createIndex o (pyRstripSlash endpoint) (e.IndexName.getD "") s3 with
          | (Except.error er, s4) => (Except.error er, s4)
          | (Except.ok _, s4) =>
            match stabilizeIndex o (pyRstripSlash endpoint) (e.IndexName.getD "") s4 with
            | (Except.error er, s5) => (Except.error er, s5)
            | (Except.ok _, s5) => (Except.error cfnNameError, s5)

/-- `handler` (lines 167-222): the `except Exception` arm (lines 217-221)
catches any exception of the `try:` body and then itself calls the undefined
`_cfn_response` (line 221), so the NameError propagates out of the handler. -/
def handler (o : Oracle) (e : Event) (s : RecState) : Except PyErr Unit × RecState :=
  match handlerTry o e s with
  | (Except.ok _, s1) => (Except.ok (), s1)
  | (Except.error _, s1) => (Except.error cfnNameError, s1)

/-- The step invariant used for the handler-wide theorems: a computation
step from state `sa` to state `sb` appends no completion callback and every
data-plane request it appends targets an index path, never the data-plane
root. -/
def Eff (sa sb : RecState) : Prop :=
  sb.cbLog = sa.cbLog ∧ ∀ r ∈ sb.dpLog, r ∈ sa.dpLog ∨ r.path ≠ DPPath.root

/-
  Part 2 models the text round trip between
  src/src/lambda/kb_json_ingestor/index.py (`build_doc`) and
  src/src/lambda/retrieval/index.py (the per-result parsing inside `handler`,
  lines 73-105).  Python strings are modelled as `List Char`; the needed
  Python primitives (`str.strip`, `in`, `str.split(sep, 1)`, `str.replace`)
  are defined below.  All patterns passed to them by the source are
  non-empty, so their behaviour on an empty pattern is irrelevant.
-/

/-- The characters removed by Python `str.strip()`. -/
def pyIsSpace (c : Char) : Bool :=
  c == ' ' || c == '\t' || c == '\n' || c == '\r' || c == '\x0b' || c == '\x0c'

/-- Python `str.strip()`: drop whitespace from both ends. -/
def pyStrip (s : List Char) : List Char :=
  ((s.dropWhile pyIsSpace).reverse.dropWhile pyIsSpace).reverse

/-- The number of positions of `s` at which the pattern `p` occurs (all
starting positions, for a non-empty `p`). -/
def occCount (p : List Char) : List Char → Nat
  | [] => 0
  | c :: t => (if p.isPrefixOf (c :: t) then 1 else 0) + occCount p t

/-- Python `p in s` for a non-empty pattern `p`. -/
def pyContains (p s : List Char) : Bool :=
  occCount p s != 0

/-- Python `s.split(p, 1)` for a non-empty `p`, reported as the pair of the
parts before and after the first occurrence of `p`, or `none` when `p` does
not occur in `s`. -/
def pySplitOnce (p : List Char) : List Char → Option (List Char × List Char)
  | [] => none
  | c :: t =>
    if p.isPrefixOf (c :: t) then some ([], (c :: t).drop p.length)
    else
      match pySplitOnce p t with
      | some lr => some (c :: lr.1, lr.2)
      | none => none

/-- Worker for `pyReplace`: replaces left to right, skipping past each
replaced occurrence, exactly as Python `str.replace`.  `fuel` only forces
structural termination; it starts at the length of the string, which bounds
the number of recursive steps because every step removes at least one
character of the input (the pattern is non-empty at every call site). -/
def pyReplaceAux (p r : List Char) : Nat → List Char → List Char
  | _, [] => []
  | 0, s => s
  | fuel + 1, c :: t =>
    if p.isPrefixOf (c :: t) then r ++ pyReplaceAux p r fuel ((c :: t).drop p.length)
    else c :: pyReplaceAux p r fuel t

/-- Python `s.replace(p, r)` for a non-empty pattern `p`. -/
def pyReplace (s p r : List Char) : List Char :=
  pyReplaceAux p r s.length s

/-- One record of the events JSON, as read by `build_doc` (`evt.get(...)`
with default `""`). -/
structure EventRecord where
  event_name : List Char
  city : List Char
  event_date : List Char
  description : List Char

/-- The flattened text of `build_doc` (line 25 of the ingestor):
`f"{name} in {city} on {date_iso}: {desc}".strip()` over the stripped
fields. -/
def buildDocText (evt : EventRecord) : List Char :=
  pyStrip (pyStrip evt.event_name ++ " in ".data ++ pyStrip evt.city ++ " on ".data
    ++ pyStrip evt.event_date ++ ": ".data ++ pyStrip evt.description)

/-- The `city` inline attribute stored by `build_doc` (line 28). -/
def buildDocCityAttr (evt : EventRecord) : List Char := pyStrip evt.city

/-- The `event_date_iso` inline attribute stored by `build_doc` (line 29). -/
def buildDocDateAttr (evt : EventRecord) : List Char := pyStrip evt.event_date

/-- Python truthiness of `metadata.get(...)`: false for `None` and for an
empty string. -/
def pyTruthy : Option (List Char) → Bool
  | none => false
  | some s => s != []

/-- The per-result parsing of the retrieval `handler` (lines 76-98): given
the retrieved `text`, the effective city (`city_val`, line 78) and the
metadata date (`date_iso`, line 79), produce the `(event_name, description)`
pair appended to the response.  The `none` arm of the split mirrors the
`except` branch of the source (unreachable under the `": " in text` guard). -/
def parseResultEvent (text : List Char) (cityVal dateIso : Option (List Char)) :
    List Char × List Char :=
  if pyContains ": ".data text then
    match pySplitOnce ": ".data text with
    | none => (text.take 50, text)
    | some lr =>
      let name0 := lr.1
      let name1 :=
        if pyTruthy dateIso && pyContains (" on ".data ++ dateIso.getD []) name0 then
          pyReplace name0 (" on ".data ++ dateIso.getD []) []
        else name0
      let name2 :=
        if pyTruthy cityVal && pyContains (" in ".data ++ cityVal.getD []) name1 then
          pyReplace name1 (" in ".data ++ cityVal.getD []) []
        else name1
      (pyStrip name2, pyStrip lr.2)
  else (text.take 50, text)

/-
  Concrete fixtures used by counterexamples and witnesses.
-/

/-- A data-plane endpoint as returned by `batch_get_collection`. -/
def epUrl : String := "https://ep.example"

/-- World in which the collection is ACTIVE and every data-plane call
returns 200. -/
def oracleAllOk : Oracle := ⟨true, fun _ => some (epUrl, "ACTIVE"), fun _ => 200⟩

/-- World in which every data-plane call returns 400. -/
def oracleHttp400 : Oracle := ⟨true, fun _ => some (epUrl, "ACTIVE"), fun _ => 400⟩

/-- World in which every data-plane call returns 503. -/
def oracleHttp503 : Oracle := ⟨true, fun _ => some (epUrl, "ACTIVE"), fun _ => 503⟩

/-- World in which `batch_get_collection` always returns an empty
`collectionDetails` list. -/
def oracleNoDetails : Oracle := ⟨true, fun _ => none, fun _ => 200⟩

/-- World in which the collection status stays CREATING forever. -/
def oracleCreating : Oracle := ⟨true, fun _ => some (epUrl, "CREATING"), fun _ => 200⟩

/-- World for a full Create run: the existence HEAD (data-plane call 0)
returns 404, everything afterwards returns 200. -/
def oracleCreateRun : Oracle :=
  ⟨true, fun _ => some (epUrl, "ACTIVE"), fun k => if k = 0 then 404 else 200⟩

/-- World in which the first two data-plane calls fail with 500 and all
later ones return 200 (used to exercise the stabilizer backoff). -/
def oracleStabFlaky : Oracle :=
  ⟨true, fun _ => some (epUrl, "ACTIVE"), fun k => if k < 2 then 500 else 200⟩

/-- A Create trigger with valid properties. -/
def eventCreate : Event :=
  ⟨some "Create", some "col", some "idx", some "https://cb.example/r", none,
   "LRID", "STACK", "REQ1"⟩

/-- A Delete trigger. -/
def eventDelete : Event :=
  ⟨some "Delete", some "col", some "idx", some "https://cb.example/r", none,
   "LRID", "STACK", "REQ2"⟩

/-- First Update trigger for collection `col`, index `idx`. -/
def eventUpdate1 : Event :=
  ⟨some "Update", some "col", some "idx", some "https://cb.example/r", some "col:idx",
   "LRID", "STACK", "REQ3"⟩

/-- Second Update trigger for the same collection and index. -/
def eventUpdate2 : Event :=
  ⟨some "Update", some "col", some "idx", some "https://cb.example/r", some "col:idx",
   "LRID", "STACK", "REQ4"⟩

deriving instance DecidableEq for Except

/-
  Theorems.
-/

/-- Claim C2 (counterexample): with every data-plane call answering 400, the
creation call raises RuntimeError instead of treating 400 as success. -/
theorem create_index_http400_raises :
    (createIndex oracleHttp400 "b" "i" RecState.init).1
      = Except.error (PyErr.runtimeError "Create index failed: HTTP 400") := by
  decide

/-- Claim C2 (amended): the creation call succeeds exactly when the
data-plane PUT returns 200 or 201; every other status, including 400 and
409, raises RuntimeError. -/
theorem create_index_ok_iff_200_or_201 (o : Oracle) (base idx : String) (s : RecState)
    (hc : o.creds = true) :
    (createIndex o base idx s).1 = Except.ok ()
      ↔ (o.dp s.dpIdx = 200 ∨ o.dp s.dpIdx = 201) := by
  by_cases h : o.dp s.dpIdx = 200 ∨ o.dp s.dpIdx = 201 <;>
    simp [createIndex, signSend, hc, h]

/-- Witness for `create_index_ok_iff_200_or_201` at a concrete world. -/
theorem create_index_ok_iff_200_or_201_witness :
    (createIndex oracleAllOk "b" "i" RecState.init).1 = Except.ok () :=
  (create_index_ok_iff_200_or_201 oracleAllOk "b" "i" RecState.init rfl).mpr (Or.inl rfl)

/-- Claim C3 (counterexample): with every data-plane call answering 503, the
creation call makes exactly one PUT, never sleeps, and raises. -/
theorem create_index_http503_no_retry :
    (createIndex oracleHttp503 "b" "i" RecState.init).2.dpLog
        = [⟨"PUT", "b", DPPath.index "i"⟩] ∧
    (createIndex oracleHttp503 "b" "i" RecState.init).2.sleepLog = [] ∧
    (createIndex oracleHttp503 "b" "i" RecState.init).1
        = Except.error (PyErr.runtimeError "Create index failed: HTTP 503") := by
  decide

/-- Claim C3 (amended): the creation call never retries: it issues exactly
one data-plane PUT and no sleep, and every status in
{401, 403, 404, 429, 500, 502, 503} raises RuntimeError immediately. -/
theorem create_index_single_attempt (o : Oracle) (base idx : String) (s : RecState)
    (hc : o.creds = true) :
    (createIndex o base idx s).2.dpIdx = s.dpIdx + 1 ∧
    (createIndex o base idx s).2.dpLog = s.dpLog ++ [⟨"PUT", base, DPPath.index idx⟩] ∧
    (createIndex o base idx s).2.sleepLog = s.sleepLog ∧
    (o.dp s.dpIdx ∈ ([401, 403, 404, 429, 500, 502, 503] : List Nat) →
      (createIndex o base idx s).1
        = Except.error (PyErr.runtimeError
            ("Create index failed: HTTP " ++ toString (o.dp s.dpIdx)))) := by
  have hne : ∀ st : Nat, st ∈ ([401, 403, 404, 429, 500, 502, 503] : List Nat) →
      ¬ (st = 200 ∨ st = 201) := by
    intro st hmem
    simp only [List.mem_cons, List.not_mem_nil, or_false] at hmem
    rcases hmem with h | h | h | h | h | h | h <;> omega
  refine ⟨?_, ?_, ?_, ?_⟩
  · simp only [createIndex, signSend, hc, if_true]
    split <;> rfl
  · simp only [createIndex, signSend, hc, if_true]
    split <;> rfl
  · simp only [createIndex, signSend, hc, if_true]
    split <;> rfl
  · intro hmem
    simp [createIndex, signSend, hc, hne _ hmem]

/-- Witness for `create_index_single_attempt` at a concrete world. -/
theorem create_index_single_attempt_witness :
    (createIndex oracleHttp503 "b" "i" RecState.init).2.sleepLog = [] ∧
    (createIndex oracleHttp503 "b" "i" RecState.init).1
      = Except.error (PyErr.runtimeError "Create index failed: HTTP 503") := by
  have h := create_index_single_attempt oracleHttp503 "b" "i" RecState.init rfl
  exact ⟨h.2.2.1, h.2.2.2 (by decide)⟩

/-- Claim C4 (counterexample): when all three probes of the very first round
return 200, the stabilizer returns success immediately: three data-plane
probes in total (a single round, not three consecutive rounds) and no sleep
at all (in particular no 30-unit settling delay). -/
theorem stabilize_single_round_returns :
    (stabilizeIndex oracleAllOk "b" "i" RecState.init).1 = Except.ok () ∧
    (stabilizeIndex oracleAllOk "b" "i" RecState.init).2.dpLog
      = [⟨"HEAD", "b", DPPath.index "i"⟩, ⟨"GET", "b", DPPath.mapping "i"⟩,
         ⟨"GET", "b", DPPath.search "i"⟩] ∧
    (stabilizeIndex oracleAllOk "b" "i" RecState.init).2.sleepLog = [] := by
  decide

/-- Claim C4 (amended): the stabilizer requires no consecutive agreement and
imposes no settling delay: as soon as one round has HEAD, `_mapping` and
`_search` all return 200 it returns success, having issued exactly the three
probes of that round and slept not at all. -/
theorem stabilize_first_all_ok_round (o : Oracle) (base idx : String) (s : RecState)
    (hc : o.creds = true)
    (h0 : o.dp s.dpIdx = 200) (h1 : o.dp (s.dpIdx + 1) = 200)
    (h2 : o.dp (s.dpIdx + 2) = 200) :
    (stabilizeIndex o base idx s).1 = Except.ok () ∧
    (stabilizeIndex o base idx s).2.dpLog
      = s.dpLog ++ [⟨"HEAD", base, DPPath.index idx⟩, ⟨"GET", base, DPPath.mapping idx⟩,
          ⟨"GET", base, DPPath.search idx⟩] ∧
    (stabilizeIndex o base idx s).2.sleepLog = s.sleepLog := by
  have hstep : stabilizeIndex o base idx s
      = stabLoop o base idx 20 (s.clock + 300) (299 + 1) 2 s := rfl
  rw [hstep, stabLoop]
  simp [signSend, hc, h0, h1, h2, show s.clock < s.clock + 300 by omega]

/-- Witness for `stabilize_first_all_ok_round` at a concrete world. -/
theorem stabilize_first_all_ok_round_witness :
    (stabilizeIndex oracleAllOk "x" "y" ⟨7, 0, 0, [], [], []⟩).1 = Except.ok () ∧
    (stabilizeIndex oracleAllOk "x" "y" ⟨7, 0, 0, [], [], []⟩).2.dpLog
      = [] ++ [⟨"HEAD", "x", DPPath.index "y"⟩, ⟨"GET", "x", DPPath.mapping "y"⟩,
          ⟨"GET", "x", DPPath.search "y"⟩] ∧
    (stabilizeIndex oracleAllOk "x" "y" ⟨7, 0, 0, [], [], []⟩).2.sleepLog = [] :=
  stabilize_first_all_ok_round oracleAllOk "x" "y" ⟨7, 0, 0, [], [], []⟩ rfl rfl rfl rfl

/-- Every sleep the stabilizer loop appends is at least the entry delay and
at most the cap, and the appended delays are non-decreasing. -/
theorem stabLoop_sleep_decomp (o : Oracle) (base idx : String) (cap deadline : Nat) :
    ∀ (fuel delay : Nat) (s : RecState), 1 ≤ delay → delay ≤ cap →
      ∃ L, (stabLoop o base idx cap deadline fuel delay s).2.sleepLog = s.sleepLog ++ L ∧
        L.Chain' (· ≤ ·) ∧ ∀ x ∈ L, delay ≤ x ∧ x ≤ cap := by
  intro fuel
  induction fuel with
  | zero =>
    intro delay s hd hdc
    exact ⟨[], by simp [stabLoop], List.chain'_nil, by simp⟩
  | succ f ih =>
    intro delay s hd hdc
    have hd2 : 1 ≤ min (delay * 2) cap := by
      have : 1 ≤ cap := le_trans hd hdc
      omega
    have hdc2 : min (delay * 2) cap ≤ cap := min_le_right _ _
    have hmono : delay ≤ min (delay * 2) cap := by omega
    have hcons : ∀ (s1 : RecState),
        s1.sleepLog = s.sleepLog →
        ∃ L, (stabLoop o base idx cap deadline f (min (delay * 2) cap)
                (sleep delay s1)).2.sleepLog = s.sleepLog ++ L ∧
          L.Chain' (· ≤ ·) ∧ ∀ x ∈ L, delay ≤ x ∧ x ≤ cap := by
      intro s1 hsl
      obtain ⟨L, hL, hchain, hmem⟩ := ih (min (delay * 2) cap) (sleep delay s1) hd2 hdc2
      refine ⟨delay :: L, ?_, ?_, ?_⟩
      · rw [hL]; simp [sleep, hsl]
      · rw [List.chain'_cons']
        exact ⟨fun b hb => le_trans hmono ((hmem b (List.mem_of_mem_head? hb)).1), hchain⟩
      · intro x hx
        rcases List.mem_cons.mp hx with h | h
        · exact ⟨le_of_eq h.symm, by omega⟩
        · exact ⟨le_trans hmono (hmem x h).1, (hmem x h).2⟩
    rw [stabLoop]
    by_cases hclk : s.clock < deadline
    · rw [if_pos hclk]
      by_cases hcr : o.creds
      · simp only [signSend, hcr, if_true]
        by_cases hh : o.dp s.dpIdx = 200
        · simp only [hh, if_pos rfl]
          by_cases hm : o.dp (s.dpIdx + 1) = 200
          · simp only [hm]
            by_cases hs : o.dp (s.dpIdx + 2) = 200
            · simp only [hs]
              exact ⟨[], by simp, List.chain'_nil, by simp⟩
            · simp only [if_neg hs, if_pos rfl]
              exact hcons _ rfl
          · simp only [if_neg hm, if_pos rfl]
            exact hcons _ rfl
        · simp only [if_neg hh]
          exact hcons _ rfl
      · simp only [signSend]
        simp only [Bool.not_eq_true] at hcr
        simp only [hcr]
        exact ⟨[], by simp, List.chain'_nil, by simp⟩
    · rw [if_neg hclk]
      exact ⟨[], by simp, List.chain'_nil, by simp⟩

/-- Every sleep of the readiness waiter loop is the constant poll interval
of 5 time units. -/
theorem waitLoop_sleep_decomp (o : Oracle) (cname : String) :
    ∀ fuel s, ∃ L, (waitLoop o cname fuel s).2.sleepLog = s.sleepLog ++ L ∧
      ∀ x ∈ L, x = 5 := by
  intro fuel
  induction fuel with
  | zero => intro s; exact ⟨[], by simp [waitLoop], by simp⟩
  | succ f ih =>
    intro s
    rw [waitLoop]
    cases hcp : o.cp s.cpIdx with
    | none =>
      exact ⟨[], by simp [getCollectionEndpoint, hcp], by simp⟩
    | some es =>
      obtain ⟨ep, st⟩ := es
      by_cases hst : st = "ACTIVE"
      · exact ⟨[], by simp [getCollectionEndpoint, hcp, hst], by simp⟩
      · obtain ⟨L, hL, hmem⟩ := ih (sleep 5 { s with cpIdx := s.cpIdx + 1 })
        refine ⟨5 :: L, ?_, ?_⟩
        · simp only [getCollectionEndpoint, hcp]
          simp only [if_neg hst]
          rw [hL]
          simp [sleep]
        · intro x hx
          rcases List.mem_cons.mp hx with h | h
          · exact h
          · exact hmem x h

/-- A constant list is non-decreasing. -/
theorem chain_le_of_const (L : List Nat) (v : Nat) (h : ∀ x ∈ L, x = v) :
    L.Chain' (· ≤ ·) := by
  induction L with
  | nil => exact List.chain'_nil
  | cons a t ih =>
    rw [List.chain'_cons']
    refine ⟨fun b hb => ?_, ih (fun x hx => h x (List.mem_cons_of_mem _ hx))⟩
    have hb2 := h b (List.mem_cons_of_mem a (List.mem_of_mem_head? hb))
    have ha := h a (List.mem_cons_self _ _)
    omega

/-- Claim C9: in each retry loop of the reconciler, the sleep delays are
non-decreasing and bounded: in the visibility stabilizer loop, for any entry
delay of at least one time unit and at most the configured cap, the sleep
sequence is non-decreasing and every delay is bounded by the cap; and in the
readiness waiter loop every sleep is the constant poll interval 5 (trivially
non-decreasing).  (The creation call has no retry loop at all.) -/
theorem stabilize_backoff_monotone_bounded (o : Oracle) (base idx : String)
    (cap deadline fuel delay : Nat) (s : RecState)
    (h1 : 1 ≤ delay) (h2 : delay ≤ cap) :
    (∃ L, (stabLoop o base idx cap deadline fuel delay s).2.sleepLog = s.sleepLog ++ L ∧
      L.Chain' (· ≤ ·) ∧ ∀ x ∈ L, x ≤ cap) ∧
    (∀ (cname : String) (fuel2 : Nat) (s2 : RecState),
      ∃ L2, (waitLoop o cname fuel2 s2).2.sleepLog = s2.sleepLog ++ L2 ∧
        L2.Chain' (· ≤ ·) ∧ ∀ x ∈ L2, x = 5) := by
  constructor
  · obtain ⟨L, hL, hchain, hmem⟩ :=
      stabLoop_sleep_decomp o base idx cap deadline fuel delay s h1 h2
    exact ⟨L, hL, hchain, fun x hx => (hmem x hx).2⟩
  · intro cname fuel2 s2
    obtain ⟨L2, hL2, hmem2⟩ := waitLoop_sleep_decomp o cname fuel2 s2
    exact ⟨L2, hL2, chain_le_of_const L2 5 hmem2, hmem2⟩

/-- Witness for `stabilize_backoff_monotone_bounded` at the stabilizer entry
parameters (cap 20, initial delay 2) in a flaky world. -/
theorem stabilize_backoff_monotone_bounded_witness :
    (∃ L, (stabLoop oracleStabFlaky "b" "i" 20 300 300 2 RecState.init).2.sleepLog
        = RecState.init.sleepLog ++ L ∧
      L.Chain' (· ≤ ·) ∧ ∀ x ∈ L, x ≤ 20) ∧
    (∃ L2, (waitLoop oracleStabFlaky "c" 61 RecState.init).2.sleepLog
        = RecState.init.sleepLog ++ L2 ∧
      L2.Chain' (· ≤ ·) ∧ ∀ x ∈ L2, x = 5) :=
  ⟨(stabilize_backoff_monotone_bounded oracleStabFlaky "b" "i" 20 300 300 2 RecState.init
      (by omega) (by omega)).1,
   (stabilize_backoff_monotone_bounded oracleStabFlaky "b" "i" 20 300 300 2 RecState.init
      (by omega) (by omega)).2 "c" 61 RecState.init⟩

/-- Claim C7 (counterexample): when the status call returns an empty details
list, the waiter raises RuntimeError immediately after a single status call,
with no sleep and no retry, instead of treating the error as "not yet". -/
theorem wait_error_aborts_concrete :
    (waitCollectionActive oracleNoDetails "col" RecState.init).1
      = Except.error (PyErr.runtimeError "Collection 'col' not found") ∧
    (waitCollectionActive oracleNoDetails "col" RecState.init).2.cpIdx = 1 ∧
    (waitCollectionActive oracleNoDetails "col" RecState.init).2.sleepLog = [] := by
  decide

/-- If every status call reports a non-ACTIVE collection, the waiter times
out (after exhausting its 61 probe opportunities). -/
theorem waitLoop_timeout (o : Oracle) (cname : String)
    (hall : ∀ k, ∃ ep st, o.cp k = some (ep, st) ∧ st ≠ "ACTIVE") :
    ∀ fuel s, (waitLoop o cname fuel s).1
      = Except.error (PyErr.timeoutError
          ("Collection '" ++ cname ++ "' did not become ACTIVE within 300s")) := by
  intro fuel
  induction fuel with
  | zero => intro s; rfl
  | succ f ih =>
    intro s
    obtain ⟨ep, st, hcp, hne⟩ := hall s.cpIdx
    rw [waitLoop]
    simp only [getCollectionEndpoint, hcp, if_neg hne]
    exact ih _

/-- Claim C7 (amended): in the collection readiness waiter, a status of
ACTIVE returns success after that single status call; an error response from
the status call itself (empty collection details) is not treated as
"not yet": it raises immediately after that single call, aborting the wait;
and if every status call reports a non-ACTIVE state the waiter raises
TimeoutError once its bound is exhausted. -/
theorem wait_active_error_timeout (o : Oracle) (cname : String) (s : RecState) :
    (o.cp s.cpIdx = none →
      (waitCollectionActive o cname s).1
          = Except.error (PyErr.runtimeError ("Collection '" ++ cname ++ "' not found")) ∧
      (waitCollectionActive o cname s).2 = { s with cpIdx := s.cpIdx + 1 }) ∧
    (∀ ep, o.cp s.cpIdx = some (ep, "ACTIVE") →
      (waitCollectionActive o cname s).1 = Except.ok () ∧
      (waitCollectionActive o cname s).2 = { s with cpIdx := s.cpIdx + 1 }) ∧
    ((∀ k, ∃ ep st, o.cp k = some (ep, st) ∧ st ≠ "ACTIVE") →
      (waitCollectionActive o cname s).1
        = Except.error (PyErr.timeoutError
            ("Collection '" ++ cname ++ "' did not become ACTIVE within 300s"))) := by
  refine ⟨?_, ?_, ?_⟩
  · intro h
    have hstep : waitCollectionActive o cname s = waitLoop o cname (60 + 1) s := rfl
    rw [hstep, waitLoop]
    simp [getCollectionEndpoint, h]
  · intro ep h
    have hstep : waitCollectionActive o cname s = waitLoop o cname (60 + 1) s := rfl
    rw [hstep, waitLoop]
    simp [getCollectionEndpoint, h]
  · intro hall
    exact waitLoop_timeout o cname hall 61 s

/-- Witness for `wait_active_error_timeout`: its three scenarios at concrete
worlds. -/
theorem wait_active_error_timeout_witness :
    (waitCollectionActive oracleNoDetails "c" RecState.init).1
        = Except.error (PyErr.runtimeError "Collection 'c' not found") ∧
    (waitCollectionActive oracleAllOk "c" RecState.init).1 = Except.ok () ∧
    (waitCollectionActive oracleCreating "c" RecState.init).1
        = Except.error (PyErr.timeoutError
            "Collection 'c' did not become ACTIVE within 300s") :=
  ⟨((wait_active_error_timeout oracleNoDetails "c" RecState.init).1 rfl).1,
   ((wait_active_error_timeout oracleAllOk "c" RecState.init).2.1 epUrl rfl).1,
   (wait_active_error_timeout oracleCreating "c" RecState.init).2.2
     (fun _ => ⟨epUrl, "CREATING", rfl, by decide⟩)⟩

/-- `_sign_and_send` never appends a completion callback. -/
theorem signSend_cbLog (o : Oracle) (r : DPReq) (s : RecState) :
    (signSend o r s).2.cbLog = s.cbLog := by
  by_cases h : o.creds <;> simp [signSend, h]

/-- `_get_collection_endpoint` never appends a completion callback. -/
theorem getCollectionEndpoint_cbLog (o : Oracle) (cname : String) (s : RecState) :
    (getCollectionEndpoint o cname s).2.cbLog = s.cbLog := by
  cases h : o.cp s.cpIdx <;> simp [getCollectionEndpoint, h]

/-- The readiness waiter never appends a completion callback. -/
theorem waitLoop_cbLog (o : Oracle) (cname : String) :
    ∀ fuel s, (waitLoop o cname fuel s).2.cbLog = s.cbLog := by
  intro fuel
  induction fuel with
  | zero => intro s; rfl
  | succ f ih =>
    intro s
    rw [waitLoop]
    cases hcp : o.cp s.cpIdx with
    | none => simp [getCollectionEndpoint, hcp]
    | some es =>
      obtain ⟨ep, st⟩ := es
      by_cases hst : st = "ACTIVE" <;>
        simp [getCollectionEndpoint, hcp, hst, ih, sleep]

/-- The stabilizer loop never appends a completion callback. -/
theorem stabLoop_cbLog (o : Oracle) (base idx : String) (cap deadline : Nat) :
    ∀ fuel delay s, (stabLoop o base idx cap deadline fuel delay s).2.cbLog = s.cbLog := by
  intro fuel
  induction fuel with
  | zero => intro delay s; rfl
  | succ f ih =>
    intro delay s
    rw [stabLoop]
    by_cases hclk : s.clock < deadline
    · rw [if_pos hclk]
      by_cases hcr : o.creds
      · by_cases hh : o.dp s.dpIdx = 200
        · by_cases hm : o.dp (s.dpIdx + 1) = 200
          · by_cases hs : o.dp (s.dpIdx + 2) = 200 <;>
              simp [signSend, hcr, hh, hm, hs, ih, sleep]
          · simp [signSend, hcr, hh, hm, ih, sleep]
        · simp [signSend, hcr, hh, ih, sleep]
      · simp [signSend, hcr]
    · rw [if_neg hclk]

/-- `Eff` is reflexive. -/
theorem effRefl (s : RecState) : Eff s s :=
  ⟨rfl, fun _ h => Or.inl h⟩

/-- `Eff` composes. -/
theorem effTrans {sa sb sc : RecState} (h1 : Eff sa sb) (h2 : Eff sb sc) : Eff sa sc := by
  refine ⟨h2.1.trans h1.1, fun r hr => ?_⟩
  rcases h2.2 r hr with h | h
  · exact h1.2 r h
  · exact Or.inr h

/-- Sleeping touches neither the callback log nor the data-plane log. -/
theorem sleep_eff (d : Nat) (s : RecState) : Eff s (sleep d s) :=
  ⟨rfl, fun r hr => Or.inl hr⟩

/-- A signed request to a non-root path preserves the step invariant. -/
theorem signSend_eff (o : Oracle) (r : DPReq) (s : RecState) (hr : r.path ≠ DPPath.root) :
    Eff s (signSend o r s).2 := by
  by_cases h : o.creds
  · refine ⟨by simp [signSend, h], fun q hq => ?_⟩
    simp [signSend, h] at hq
    rcases hq with hq | hq
    · exact Or.inl hq
    · subst hq; exact Or.inr hr
  · have hs : (signSend o r s).2 = s := by simp [signSend, h]
    rw [hs]; exact effRefl s

/-- The control-plane status call preserves the step invariant. -/
theorem getCollectionEndpoint_eff (o : Oracle) (cname : String) (s : RecState) :
    Eff s (getCollectionEndpoint o cname s).2 := by
  cases h : o.cp s.cpIdx <;>
    exact ⟨by simp [getCollectionEndpoint, h], fun q hq => Or.inl (by
      simpa [getCollectionEndpoint, h] using hq)⟩

/-- The readiness waiter changes neither the data-plane log nor the callback
log. -/
theorem waitLoop_dpcb (o : Oracle) (cname : String) :
    ∀ fuel s, (waitLoop o cname fuel s).2.dpLog = s.dpLog ∧
      (waitLoop o cname fuel s).2.cbLog = s.cbLog := by
  intro fuel
  induction fuel with
  | zero => intro s; exact ⟨rfl, rfl⟩
  | succ f ih =>
    intro s
    rw [waitLoop]
    cases hcp : o.cp s.cpIdx with
    | none => simp [getCollectionEndpoint, hcp]
    | some es =>
      obtain ⟨ep, st⟩ := es
      by_cases hst : st = "ACTIVE" <;>
        simp [getCollectionEndpoint, hcp, hst, ih, sleep]

/-- The readiness waiter preserves the step invariant. -/
theorem waitCollectionActive_eff (o : Oracle) (cname : String) (s : RecState) :
    Eff s (waitCollectionActive o cname s).2 := by
  obtain ⟨hdp, hcb⟩ := waitLoop_dpcb o cname 61 s
  exact ⟨hcb, fun r hr => Or.inl (hdp ▸ hr)⟩

/-- The existence probe preserves the step invariant. -/
theorem indexExists_eff (o : Oracle) (base idx : String) (s : RecState) :
    Eff s (indexExists o base idx s).2 := by
  have h := signSend_eff o ⟨"HEAD", base, DPPath.index idx⟩ s (by intro hcon; cases hcon)
  unfold indexExists
  rcases hw : signSend o ⟨"HEAD", base, DPPath.index idx⟩ s with ⟨r1, s1⟩
  rw [hw] at h
  cases r1 <;> exact h

/-- The index creation call preserves the step invariant. -/
theorem createIndex_eff (o : Oracle) (base idx : String) (s : RecState) :
    Eff s (createIndex o base idx s).2 := by
  have h := signSend_eff o ⟨"PUT", base, DPPath.index idx⟩ s (by intro hcon; cases hcon)
  unfold createIndex
  rcases hw : signSend o ⟨"PUT", base, DPPath.index idx⟩ s with ⟨r1, s1⟩
  rw [hw] at h
  cases r1 with
  | error er => exact h
  | ok st =>
    dsimp only
    split <;> exact h

/-- The stabilizer loop preserves the step invariant. -/
theorem stabLoop_eff (o : Oracle) (base idx : String) (cap deadline : Nat) :
    ∀ fuel delay s, Eff s (stabLoop o base idx cap deadline fuel delay s).2 := by
  intro fuel
  induction fuel with
  | zero => intro delay s; exact effRefl s
  | succ f ih =>
    intro delay s
    rw [stabLoop]
    by_cases hclk : s.clock < deadline
    case neg => rw [if_neg hclk]; exact effRefl s
    rw [if_pos hclk]
    rcases h1 : signSend o ⟨"HEAD", base, DPPath.index idx⟩ s with ⟨r1, s1⟩
    have e1 : Eff s s1 := by
      have h := signSend_eff o ⟨"HEAD", base, DPPath.index idx⟩ s (by intro hcon; cases hcon)
      rwa [h1] at h
    cases r1 with
    | error er => exact e1
    | ok hst =>
      dsimp only
      by_cases hh : hst = 200
      case neg => rw [if_neg hh]; exact effTrans e1 (effTrans (sleep_eff delay s1) (ih _ _))
      rw [if_pos hh]
      rcases h2 : signSend o ⟨"GET", base, DPPath.mapping idx⟩ s1 with ⟨r2, s2⟩
      have e2 : Eff s s2 := by
        have h := signSend_eff o ⟨"GET", base, DPPath.mapping idx⟩ s1 (by intro hcon; cases hcon)
        rw [h2] at h
        exact effTrans e1 h
      cases r2 with
      | error er => exact e2
      | ok mst =>
        dsimp only
        by_cases hm : mst = 200
        case neg => rw [if_neg hm]; exact effTrans e2 (effTrans (sleep_eff delay s2) (ih _ _))
        rw [if_pos hm]
        rcases h3 : signSend o ⟨"GET", base, DPPath.search idx⟩ s2 with ⟨r3, s3⟩
        have e3 : Eff s s3 := by
          have h := signSend_eff o ⟨"GET", base, DPPath.search idx⟩ s2 (by intro hcon; cases hcon)
          rw [h3] at h
          exact effTrans e2 h
        cases r3 with
        | error er => exact e3
        | ok sst =>
          dsimp only
          by_cases hs : sst = 200
          · rw [if_pos hs]; exact e3
          · rw [if_neg hs]; exact effTrans e3 (effTrans (sleep_eff delay s3) (ih _ _))

/-- The whole stabilizer preserves the step invariant. -/
theorem stabilizeIndex_eff (o : Oracle) (base idx : String) (s : RecState) :
    Eff s (stabilizeIndex o base idx s).2 :=
  stabLoop_eff o base idx 20 (s.clock + 300) 300 2 s

/-- The `try:` body of the handler preserves the step invariant: it appends
no completion callback and every data-plane request it issues targets an
index path, never the data-plane root. -/
theorem handlerTry_eff (o : Oracle) (e : Event) (s : RecState) :
    Eff s (handlerTry o e s).2 := by
  unfold handlerTry
  by_cases hdel : e.RequestType.getD "Create" = "Delete"
  · rw [if_pos hdel]; exact effRefl s
  rw [if_neg hdel]
  by_cases hval : (pyFalsy e.CollectionName || pyFalsy e.IndexName) = true
  · rw [if_pos hval]; exact effRefl s
  rw [if_neg hval]
  rcases h1 : waitCollectionActive o (e.CollectionName.getD "") s with ⟨r1, s1⟩
  have e1 : Eff s s1 := by
    have h := waitCollectionActive_eff o (e.CollectionName.getD "") s
    rwa [h1] at h
  cases r1 with
  | error er => exact e1
  | ok u =>
    dsimp only
    rcases h2 : getCollectionEndpoint o (e.CollectionName.getD "") s1 with ⟨r2, s2⟩
    have e2 : Eff s s2 := by
      have h := getCollectionEndpoint_eff o (e.CollectionName.getD "") s1
      rw [h2] at h
      exact effTrans e1 h
    cases r2 with
    | error er => exact e2
    | ok pr =>
      obtain ⟨endpoint, cstatus⟩ := pr
      dsimp only
      rcases h3 : indexExists o (pyRstripSlash endpoint) (e.IndexName.getD "") s2 with ⟨r3, s3⟩
      have e3 : Eff s s3 := by
        have h := indexExists_eff o (pyRstripSlash endpoint) (e.IndexName.getD "") s2
        rw [h3] at h
        exact effTrans e2 h
      cases r3 with
      | error er => exact e3
      | ok b =>
        cases b with
        | true =>
          dsimp only
          rcases h4 : stabilizeIndex o (pyRstripSlash endpoint) (e.IndexName.getD "") s3
            with ⟨r4, s4⟩
          have e4 : Eff s s4 := by
            have h := stabilizeIndex_eff o (pyRstripSlash endpoint) (e.IndexName.getD "") s3
            rw [h4] at h
            exact effTrans e3 h
          cases r4 <;> exact e4
        | false =>
          dsimp only
          rcases h4 : createIndex o (pyRstripSlash endpoint) (e.IndexName.getD "") s3
            with ⟨r4, s4⟩
          have e4 : Eff s s4 := by
            have h := createIndex_eff o (pyRstripSlash endpoint) (e.IndexName.getD "") s3
            rw [h4] at h
            exact effTrans e3 h
          cases r4 with
          | error er => exact e4
          | ok u2 =>
            dsimp only
            rcases h5 : stabilizeIndex o (pyRstripSlash endpoint) (e.IndexName.getD "") s4
              with ⟨r5, s5⟩
            have e5 : Eff s s5 := by
              have h := stabilizeIndex_eff o (pyRstripSlash endpoint) (e.IndexName.getD "") s4
              rw [h5] at h
              exact effTrans e4 h
            cases r5 <;> exact e5

/-- Every arm of the `try:` body ends in an exception (each path terminates
in a call of the undefined `_cfn_response` or raises earlier). -/
theorem handlerTry_error (o : Oracle) (e : Event) (s : RecState) :
    ∃ er, (handlerTry o e s).1 = Except.error er := by
  unfold handlerTry
  repeat' split
  all_goals exact ⟨_, rfl⟩

/-- The handler returns the state of its `try:` body unchanged. -/
theorem handler_snd (o : Oracle) (e : Event) (s : RecState) :
    (handler o e s).2 = (handlerTry o e s).2 := by
  unfold handler
  rcases h : handlerTry o e s with ⟨r1, s1⟩
  cases r1 <;> rfl

/-- Claim C1: contrary to the specified exactly-one-callback contract, every
invocation of the handler terminates by raising NameError (the handler calls
the undefined name `_cfn_response` on every path, including from inside its
own `except` clause), and no completion callback HTTP PUT is ever sent. -/
theorem handler_always_raises_no_callback (o : Oracle) (e : Event) (s : RecState) :
    (handler o e s).1 = Except.error cfnNameError ∧
    (handler o e s).2.cbLog = s.cbLog := by
  constructor
  · obtain ⟨er, her⟩ := handlerTry_error o e s
    unfold handler
    rcases hh : handlerTry o e s with ⟨r1, s1⟩
    rw [hh] at her
    cases r1 with
    | error e2 => rfl
    | ok u => exact absurd her (by simp)
  · rw [handler_snd]
    exact (handlerTry_eff o e s).1

/-- Claim C5: a Delete invocation issues no data-plane request, but instead
of reporting a SUCCESS callback it raises NameError (undefined
`_cfn_response`) and sends nothing. -/
theorem delete_no_dataplane_no_callback (o : Oracle) (e : Event) (s : RecState)
    (h : e.RequestType = some "Delete") :
    (handler o e s).1 = Except.error cfnNameError ∧
    (handler o e s).2.dpLog = s.dpLog ∧
    (handler o e s).2.cbLog = s.cbLog := by
  have hTry : handlerTry o e s = (Except.error cfnNameError, s) := by
    simp [handlerTry, h]
  simp [handler, hTry]

/-- Witness for `delete_no_dataplane_no_callback` at a concrete Delete
event. -/
theorem delete_no_dataplane_no_callback_witness :
    (handler oracleAllOk eventDelete RecState.init).1 = Except.error cfnNameError ∧
    (handler oracleAllOk eventDelete RecState.init).2.dpLog = RecState.init.dpLog ∧
    (handler oracleAllOk eventDelete RecState.init).2.cbLog = RecState.init.cbLog :=
  delete_no_dataplane_no_callback oracleAllOk eventDelete RecState.init rfl

/-- Claim C8: two Update invocations for the same collection and index send
no completion callback at all (the NameError bug), so no PhysicalResourceId
is ever transmitted; moreover the defined-but-unused `_cf_response` helper
itself raises NameError on the unbound name `data` before its HTTP PUT, so
even it sends nothing. -/
theorem update_invocations_send_no_callback :
    (handler oracleNoDetails eventUpdate1 RecState.init).2.cbLog = [] ∧
    (handler oracleNoDetails eventUpdate2 RecState.init).2.cbLog = [] ∧
    (cfResponse eventUpdate1 "SUCCESS" none RecState.init).1
        = Except.error (PyErr.nameError "name 'data' is not defined") ∧
    (cfResponse eventUpdate1 "SUCCESS" none RecState.init).2.cbLog = [] := by
  decide

/-- Claim C6 (counterexample): a full Create run (collection ACTIVE at once,
index absent, creation and stabilization succeed) issues exactly an
existence HEAD, the creation PUT and the three stabilization probes — no
signed GET against the data-plane root ever happens between the readiness
wait and the existence check (or anywhere else). -/
theorem create_run_trace_no_root_probe :
    (handler oracleCreateRun eventCreate RecState.init).2.dpLog
      = [⟨"HEAD", epUrl, DPPath.index "idx"⟩, ⟨"PUT", epUrl, DPPath.index "idx"⟩,
         ⟨"HEAD", epUrl, DPPath.index "idx"⟩, ⟨"GET", epUrl, DPPath.mapping "idx"⟩,
         ⟨"GET", epUrl, DPPath.search "idx"⟩] ∧
    (∀ r ∈ (handler oracleCreateRun eventCreate RecState.init).2.dpLog,
       ¬ (r.method = "GET" ∧ r.path = DPPath.root)) := by
  decide

/-- Claim C6 (amended): no access-propagation preflight exists: on every
invocation and in every world, each data-plane request the reconciler issues
targets an index path (existence HEAD, creation PUT, `_mapping` or `_search`
probe); a GET against the data-plane root is never issued. -/
theorem handler_never_probes_root (o : Oracle) (e : Event) (s : RecState) :
    ∀ r ∈ (handler o e s).2.dpLog, r ∈ s.dpLog ∨ r.path ≠ DPPath.root := by
  intro r hr
  rw [handler_snd] at hr
  exact (handlerTry_eff o e s).2 r hr

/-- Witness for `handler_never_probes_root` at a concrete Create run. -/
theorem handler_never_probes_root_witness :
    (⟨"HEAD", epUrl, DPPath.index "idx"⟩ : DPReq)
        ∈ (handler oracleCreateRun eventCreate RecState.init).2.dpLog ∧
    ((⟨"HEAD", epUrl, DPPath.index "idx"⟩ : DPReq) ∈ RecState.init.dpLog ∨
      (⟨"HEAD", epUrl, DPPath.index "idx"⟩ : DPReq).path ≠ DPPath.root) :=
  ⟨by decide,
   handler_never_probes_root oracleCreateRun eventCreate RecState.init _ (by decide)⟩

/-- If stripping is the identity, so is dropping leading whitespace. -/
theorem dropWhile_eq_self_of_strip (u : List Char) (h : pyStrip u = u) :
    u.dropWhile pyIsSpace = u := by
  have hsuf : u.dropWhile pyIsSpace <:+ u := List.dropWhile_suffix _
  apply hsuf.eq_of_length
  have h1 : (List.rdropWhile pyIsSpace (u.dropWhile pyIsSpace)).length
      ≤ (u.dropWhile pyIsSpace).length := (List.rdropWhile_prefix _ _).sublist.length_le
  have h2 : (u.dropWhile pyIsSpace).length ≤ u.length := hsuf.sublist.length_le
  have h3 : pyStrip u = List.rdropWhile pyIsSpace (u.dropWhile pyIsSpace) := rfl
  have h4 : (pyStrip u).length = u.length := by rw [h]
  rw [h3] at h4
  omega

/-- If stripping is the identity, so is dropping trailing whitespace. -/
theorem rdropWhile_eq_self_of_strip (u : List Char) (h : pyStrip u = u) :
    List.rdropWhile pyIsSpace u = u := by
  have hd := dropWhile_eq_self_of_strip u h
  have h3 : pyStrip u = List.rdropWhile pyIsSpace (u.dropWhile pyIsSpace) := rfl
  rw [hd] at h3
  rw [← h3, h]

/-- The head of a non-empty stripped string is not whitespace. -/
theorem head_not_space_of_strip (x : Char) (t : List Char) (h : pyStrip (x :: t) = x :: t) :
    pyIsSpace x = false := by
  have hd := dropWhile_eq_self_of_strip _ h
  by_cases hx : pyIsSpace x
  · rw [List.dropWhile_cons_of_pos hx] at hd
    have hlen := congrArg List.length hd
    have hle : (t.dropWhile pyIsSpace).length ≤ t.length :=
      (List.dropWhile_suffix _).sublist.length_le
    simp at hlen
    omega
  · exact Bool.eq_false_iff.mpr hx

/-- The last character of a non-empty stripped string is not whitespace. -/
theorem last_not_space_of_strip (w1 : List Char) (y : Char)
    (h : pyStrip (w1 ++ [y]) = w1 ++ [y]) : pyIsSpace y = false := by
  have hr := rdropWhile_eq_self_of_strip _ h
  by_cases hy : pyIsSpace y
  · rw [List.rdropWhile_concat_pos pyIsSpace w1 y hy] at hr
    have hlen := congrArg List.length hr
    have hle : (List.rdropWhile pyIsSpace w1).length ≤ w1.length :=
      (List.rdropWhile_prefix _ _).sublist.length_le
    simp at hlen
    omega
  · exact Bool.eq_false_iff.mpr hy

/-- Stripping a string with a non-whitespace first and last character is the
identity. -/
theorem strip_append_id (x : Char) (t m w1 : List Char) (y : Char)
    (hx : pyIsSpace x = false) (hy : pyIsSpace y = false) :
    pyStrip ((x :: t) ++ m ++ (w1 ++ [y])) = (x :: t) ++ m ++ (w1 ++ [y]) := by
  have h1 : ((x :: t) ++ m ++ (w1 ++ [y])).dropWhile pyIsSpace
      = (x :: t) ++ m ++ (w1 ++ [y]) := by
    rw [show (x :: t) ++ m ++ (w1 ++ [y]) = x :: (t ++ m ++ (w1 ++ [y])) by simp]
    exact List.dropWhile_cons_of_neg (by simp [hx])
  have h2 : List.rdropWhile pyIsSpace ((x :: t) ++ m ++ (w1 ++ [y]))
      = (x :: t) ++ m ++ (w1 ++ [y]) := by
    rw [show (x :: t) ++ m ++ (w1 ++ [y]) = ((x :: t) ++ m ++ w1) ++ [y] by simp]
    exact List.rdropWhile_concat_neg pyIsSpace _ y (by simp [hy])
  show List.rdropWhile pyIsSpace
      (((x :: t) ++ m ++ (w1 ++ [y])).dropWhile pyIsSpace) = _
  rw [h1, h2]

/-- A pattern occurs at least once in any string of which it is an infix in
the explicit form `u ++ (p ++ v)`. -/
theorem occ_ge_one (p : List Char) (hp : p ≠ []) :
    ∀ (u v : List Char), 1 ≤ occCount p (u ++ (p ++ v)) := by
  intro u
  induction u with
  | nil =>
    intro v
    obtain ⟨ph, pt, rfl⟩ : ∃ ph pt, p = ph :: pt := by
      cases p with
      | nil => exact absurd rfl hp
      | cons a b => exact ⟨a, b, rfl⟩
    rw [List.nil_append, List.cons_append, occCount]
    have hpre : (ph :: pt).isPrefixOf (ph :: (pt ++ v)) = true := by
      rw [List.isPrefixOf_iff_prefix, ← List.cons_append]
      exact List.prefix_append _ _
    rw [hpre]
    simp
  | cons a u2 ih =>
    intro v
    rw [List.cons_append, occCount]
    exact le_trans (ih v) (Nat.le_add_left _ _)

/-- A pattern occurs at least once in `u ++ p`. -/
theorem occ_tail (p : List Char) (hp : p ≠ []) (u : List Char) :
    1 ≤ occCount p (u ++ p) := by
  have h := occ_ge_one p hp u []
  rwa [List.append_nil] at h

/-- If the pattern `": "` does not occur in `pre`, splitting
`pre ++ ": " ++ de` at the first occurrence yields `(pre, de)`.  (This uses
that the two characters of the pattern differ, so no occurrence can span the
boundary between `pre` and the separator.) -/
theorem splitOnce_colon_space (de : List Char) :
    ∀ pre, occCount [':', ' '] pre = 0 →
      pySplitOnce [':', ' '] (pre ++ [':', ' '] ++ de) = some (pre, de) := by
  intro pre
  induction pre with
  | nil =>
    intro _
    simp [pySplitOnce, List.isPrefixOf]
  | cons a pre2 ih =>
    intro h
    rw [occCount] at h
    have hsum : (if ([':', ' ']).isPrefixOf (a :: pre2) then 1 else 0) = 0
        ∧ occCount [':', ' '] pre2 = 0 := by omega
    have h2 : occCount [':', ' '] pre2 = 0 := hsum.2
    have hnp : ([':', ' ']).isPrefixOf (a :: pre2) = false := by
      rcases hb : ([':', ' ']).isPrefixOf (a :: pre2) with _ | _
      · rfl
      · rw [hb] at hsum; simp at hsum
    rw [show (a :: pre2) ++ [':', ' '] ++ de = a :: (pre2 ++ [':', ' '] ++ de) by simp]
    rw [pySplitOnce]
    have hcond : ([':', ' ']).isPrefixOf (a :: (pre2 ++ [':', ' '] ++ de)) = false := by
      cases pre2 with
      | nil =>
        simp [List.isPrefixOf]
      | cons b pre3 =>
        simp only [List.isPrefixOf, List.cons_append] at hnp ⊢
        simpa using hnp
    rw [hcond]
    simp only [Bool.false_eq_true, if_false]
    rw [ih h2]

/-- If the pattern `p` occurs in `u ++ p` exactly once (namely as the final
segment), replacing it by the empty string removes exactly that final
segment.  Stated on the fuel-indexed worker. -/
theorem replaceAux_cancel (p : List Char) (hp : p ≠ []) :
    ∀ (u : List Char) (fuel : Nat), occCount p (u ++ p) = 1 → (u ++ p).length ≤ fuel →
      pyReplaceAux p [] fuel (u ++ p) = u := by
  intro u
  induction u with
  | nil =>
    intro fuel h hlen
    obtain ⟨ph, pt, rfl⟩ : ∃ ph pt, p = ph :: pt := by
      cases p with
      | nil => exact absurd rfl hp
      | cons a b => exact ⟨a, b, rfl⟩
    rw [List.nil_append] at hlen ⊢
    cases fuel with
    | zero => simp at hlen
    | succ f =>
      rw [pyReplaceAux]
      have hpre : (ph :: pt).isPrefixOf (ph :: pt) = true := by
        rw [List.isPrefixOf_iff_prefix]
      rw [hpre]
      simp only [if_true, List.nil_append]
      rw [List.drop_length]
      cases f <;> rfl
  | cons a u2 ih =>
    intro fuel h hlen
    have htail : 1 ≤ occCount p (u2 ++ p) := occ_tail p hp u2
    rw [List.cons_append, occCount] at h
    have hnp : p.isPrefixOf (a :: (u2 ++ p)) = false := by
      rcases hb : p.isPrefixOf (a :: (u2 ++ p)) with _ | _
      · rfl
      · rw [hb] at h; simp at h; omega
    have h2 : occCount p (u2 ++ p) = 1 := by
      rw [hnp] at h; simpa using h
    rw [List.cons_append, List.length_cons] at hlen
    cases fuel with
    | zero => omega
    | succ f =>
      rw [List.cons_append, pyReplaceAux, hnp]
      simp only [Bool.false_eq_true, if_false]
      rw [ih f h2 (by omega)]

/-- `str.replace` form of `replaceAux_cancel`. -/
theorem pyReplace_cancel (p : List Char) (hp : p ≠ []) (u : List Char)
    (h : occCount p (u ++ p) = 1) : pyReplace (u ++ p) p [] = u :=
  replaceAux_cancel p hp u (u ++ p).length h le_rfl

/-- Occurring at least once makes Python `in` true. -/
theorem pyContains_of_one_le (p s : List Char) (h : 1 ≤ occCount p s) :
    pyContains p s = true := by
  simp only [pyContains, bne_iff_ne, ne_eq]
  omega


/-- Claim C10 (amended): the ingestion-to-retrieval text round trip recovers
the stripped name and description provided the record is well-behaved: all
four stripped fields are non-empty, `": "` does not occur in the flattened
prefix `"{name} in {city} on {date}"`, `" on {date}"` occurs in that prefix
exactly once (as its final segment), and `" in {city}"` occurs exactly once
in `"{name} in {city}"`. -/
theorem roundtrip_parse_recovers (n c d de : List Char)
    (hsn : pyStrip n = n) (hsc : pyStrip c = c) (hsd : pyStrip d = d)
    (hsde : pyStrip de = de)
    (hn : n ≠ []) (hde : de ≠ []) (hc : c ≠ []) (hd : d ≠ [])
    (hpre : occCount ": ".data (n ++ " in ".data ++ c ++ " on ".data ++ d) = 0)
    (hon : occCount (" on ".data ++ d) (n ++ " in ".data ++ c ++ " on ".data ++ d) = 1)
    (hin : occCount (" in ".data ++ c) (n ++ " in ".data ++ c) = 1) :
    parseResultEvent (buildDocText ⟨n, c, d, de⟩) (some c) (some d) = (n, de) := by
  have e1 : ": ".data = [':', ' '] := rfl
  have e2 : " in ".data = [' ', 'i', 'n', ' '] := rfl
  have e3 : " on ".data = [' ', 'o', 'n', ' '] := rfl
  simp only [e1, e2, e3] at hpre hon hin
  obtain ⟨x, t, rfl⟩ : ∃ x t, n = x :: t := by
    cases n with
    | nil => exact absurd rfl hn
    | cons x t => exact ⟨x, t, rfl⟩
  obtain ⟨w1, y, rfl⟩ : ∃ w1 y, de = w1 ++ [y] := by
    rcases List.eq_nil_or_concat de with h | ⟨w1, y, h⟩
    · exact absurd h hde
    · exact ⟨w1, y, by simpa using h⟩
  have hx : pyIsSpace x = false := head_not_space_of_strip x t hsn
  have hy : pyIsSpace y = false := last_not_space_of_strip w1 y hsde
  have htext : buildDocText ⟨x :: t, c, d, w1 ++ [y]⟩
      = (x :: t) ++ [' ', 'i', 'n', ' '] ++ c ++ [' ', 'o', 'n', ' '] ++ d ++ [':', ' ']
        ++ (w1 ++ [y]) := by
    show pyStrip (pyStrip (x :: t) ++ [' ', 'i', 'n', ' '] ++ pyStrip c ++ [' ', 'o', 'n', ' ']
        ++ pyStrip d ++ [':', ' '] ++ pyStrip (w1 ++ [y])) = _
    rw [hsn, hsc, hsd, hsde]
    have h := strip_append_id x t
      ([' ', 'i', 'n', ' '] ++ c ++ [' ', 'o', 'n', ' '] ++ d ++ [':', ' ']) w1 y hx hy
    simp only [List.append_assoc] at h ⊢
    exact h
  rw [htext]
  have hsplit := splitOnce_colon_space (w1 ++ [y])
    ((x :: t) ++ [' ', 'i', 'n', ' '] ++ c ++ [' ', 'o', 'n', ' '] ++ d) hpre
  have hcont : pyContains [':', ' ']
      ((x :: t) ++ [' ', 'i', 'n', ' '] ++ c ++ [' ', 'o', 'n', ' '] ++ d ++ [':', ' ']
        ++ (w1 ++ [y])) = true := by
    apply pyContains_of_one_le
    have h := occ_ge_one [':', ' '] (by decide)
      ((x :: t) ++ [' ', 'i', 'n', ' '] ++ c ++ [' ', 'o', 'n', ' '] ++ d) (w1 ++ [y])
    simpa only [List.append_assoc] using h
  unfold parseResultEvent
  simp only [e1, e2, e3]
  rw [hcont]
  simp only [if_true]
  rw [hsplit]
  dsimp only
  simp only [Option.getD_some]
  have htruthyd : pyTruthy (some d) = true := by
    simp only [pyTruthy, bne_iff_ne, ne_eq, decide_eq_true_eq]
    exact hd
  have hcont1 : pyContains ([' ', 'o', 'n', ' '] ++ d)
      ((x :: t) ++ [' ', 'i', 'n', ' '] ++ c ++ [' ', 'o', 'n', ' '] ++ d) = true := by
    apply pyContains_of_one_le
    omega
  have hrep1 : pyReplace ((x :: t) ++ [' ', 'i', 'n', ' '] ++ c ++ [' ', 'o', 'n', ' '] ++ d)
      ([' ', 'o', 'n', ' '] ++ d) [] = (x :: t) ++ [' ', 'i', 'n', ' '] ++ c := by
    have hp1 : ([' ', 'o', 'n', ' '] ++ d) ≠ [] := by simp
    have honx : occCount ([' ', 'o', 'n', ' '] ++ d)
        (((x :: t) ++ [' ', 'i', 'n', ' '] ++ c) ++ ([' ', 'o', 'n', ' '] ++ d)) = 1 := by
      simpa only [List.append_assoc] using hon
    have h := pyReplace_cancel ([' ', 'o', 'n', ' '] ++ d) hp1
      ((x :: t) ++ [' ', 'i', 'n', ' '] ++ c) honx
    simpa only [List.append_assoc] using h
  rw [htruthyd, hcont1]
  simp only [Bool.and_self, if_true]
  rw [hrep1]
  have htruthyc : pyTruthy (some c) = true := by
    simp only [pyTruthy, bne_iff_ne, ne_eq, decide_eq_true_eq]
    exact hc
  have hcont2 : pyContains ([' ', 'i', 'n', ' '] ++ c)
      ((x :: t) ++ [' ', 'i', 'n', ' '] ++ c) = true := by
    apply pyContains_of_one_le
    omega
  have hrep2 : pyReplace ((x :: t) ++ [' ', 'i', 'n', ' '] ++ c) ([' ', 'i', 'n', ' '] ++ c) []
      = x :: t := by
    have hp2 : ([' ', 'i', 'n', ' '] ++ c) ≠ [] := by simp
    have hinx : occCount ([' ', 'i', 'n', ' '] ++ c)
        ((x :: t) ++ ([' ', 'i', 'n', ' '] ++ c)) = 1 := by
      simpa only [List.append_assoc] using hin
    have h := pyReplace_cancel ([' ', 'i', 'n', ' '] ++ c) hp2 (x :: t) hinx
    simpa only [List.append_assoc] using h
  rw [htruthyc, hcont2]
  simp only [Bool.and_self, if_true]
  rw [hrep2, hsn, hsde]

/-- Claim C10 (counterexample): the record name="N", city="C",
date="2024-01-01", description="" satisfies every hypothesis of the claim
(the stripped name contains no ": ", no " in C" and no " on 2024-01-01";
city and date are non-empty), yet the flattened text is
"N in C on 2024-01-01:" — the final strip removes the space after the colon
— which contains no ": ", so the retrieval parser falls back to
event_name = text[:50], and the parsed name differs from the stripped
original name "N". -/
theorem roundtrip_fails_empty_description :
    pyContains ": ".data (pyStrip "N".data) = false ∧
    pyContains (" in ".data ++ pyStrip "C".data) (pyStrip "N".data) = false ∧
    pyContains (" on ".data ++ pyStrip "2024-01-01".data) (pyStrip "N".data) = false ∧
    pyStrip "C".data ≠ [] ∧
    pyStrip "2024-01-01".data ≠ [] ∧
    (parseResultEvent
        (buildDocText ⟨"N".data, "C".data, "2024-01-01".data, "".data⟩)
        (some (buildDocCityAttr ⟨"N".data, "C".data, "2024-01-01".data, "".data⟩))
        (some (buildDocDateAttr ⟨"N".data, "C".data, "2024-01-01".data, "".data⟩))).1
      ≠ pyStrip "N".data := by
  decide

/-- Witness for `roundtrip_parse_recovers` at a concrete well-behaved
record. -/
theorem roundtrip_parse_recovers_witness :
    (pyStrip "N".data = "N".data ∧ pyStrip "C".data = "C".data ∧
     pyStrip "2024-01-01".data = "2024-01-01".data ∧
     pyStrip "hello".data = "hello".data ∧
     "N".data ≠ [] ∧ "hello".data ≠ [] ∧ "C".data ≠ [] ∧ "2024-01-01".data ≠ [] ∧
     occCount ": ".data
       ("N".data ++ " in ".data ++ "C".data ++ " on ".data ++ "2024-01-01".data) = 0 ∧
     occCount (" on ".data ++ "2024-01-01".data)
       ("N".data ++ " in ".data ++ "C".data ++ " on ".data ++ "2024-01-01".data) = 1 ∧
     occCount (" in ".data ++ "C".data) ("N".data ++ " in ".data ++ "C".data) = 1) ∧
    parseResultEvent (buildDocText ⟨"N".data, "C".data, "2024-01-01".data, "hello".data⟩)
        (some "C".data) (some "2024-01-01".data) = ("N".data, "hello".data) :=
  ⟨by decide,
   roundtrip_parse_recovers "N".data "C".data "2024-01-01".data "hello".data
     (by decide) (by decide) (by decide) (by decide) (by decide) (by decide)
     (by decide) (by decide) (by decide) (by decide) (by decide)⟩
